import Mathlib

/-!
Verification development for the SparrowFlix catalog bot.

Shallow embedding of the Python sources under src/ (upload.py, add_title.py,
fetch.py, utils.py, database.py, bot.py).  Telegram messages are records of the
fields the handlers read; MongoDB documents are records mirroring the stored
shape; the pymongo calls made by the source are modelled as pure functions on
those records, following MongoDB's documented semantics for dotted-path array
queries, the positional `$` operator and arrayFilters.  External collaborators
(TMDB HTTP calls, the chat transport, the storage channel) are passed in as
oracle parameters.  Python exceptions are modelled with `Except PyError`.
-/

namespace SparrowFlix

/-- The fields of a telebot `message` object that the handlers read.
`text`/`caption` are `none` when the message carries no text/caption
(Python `None`). -/
structure Msg where
  chat_id : Nat
  text : Option String := none
  content_type : String := "text"
  document : Option String := none
  video : Option String := none
  caption : Option String := none
  date : Nat := 0
deriving Repr, DecidableEq

/-- Python runtime faults that the embedded handlers can raise. -/
inductive PyError where
  | typeError (fn : String)
  | attributeError (what : String)
  | importError (what : String)
  | dbError (what : String)
deriving Repr, DecidableEq

/-- One episode record as stored inside `details.seasons[i].episodes` by the
upload paths: `{"episode_number": n, "file_id": fid}` plus the
`channel_message_id` back-link added by `forward_to_storage_channel`.
`none` models an absent field. -/
structure Episode where
  episode_number : Nat
  file_id : Option String := none
  channel_message_id : Option Nat := none
deriving Repr, DecidableEq

/-- One season object inside the `details` blob: TMDB gives `season_number`;
`episodes` is created/extended by the upload paths (absent array modelled
as `[]`, which is how `season.get("episodes", [])` reads it). -/
structure Season where
  season_number : Nat
  episodes : List Episode := []
deriving Repr, DecidableEq

/-- The `details` blob stored on a title.  The workflows only ever read its
`seasons` list (`details.get("seasons", [])`), so the empty blob `{}`
returned by a failed TMDB lookup is modelled as `seasons = []`. -/
structure Details where
  seasons : List Season := []
deriving Repr, DecidableEq

/-- A catalog document as inserted by `process_tmdb_selection`
(src/add_title.py:127-135) and mutated by the upload paths.  `_id` is not
modelled: every embedded collection operation below acts on the document
already selected by its `_id`. -/
structure Doc where
  title : String
  language : String
  type : String
  details : Details := {}
  file_id : Option String := none
  channel_message_id : Option Nat := none
  created_at : Nat := 0
deriving Repr, DecidableEq

/-! ## MongoDB operations used by the TV-show upload path (src/upload.py)

The `find_one` at src/upload.py:168-174 runs the filter
`{"_id": .., "details.seasons.season_number": sn,
  "details.seasons.episodes.episode_number": en}`.
Per MongoDB's array-matching semantics, each dotted condition is satisfied
independently by *some* array element (there is no `$elemMatch`), so the
season whose number matches `sn` and the season containing an episode
numbered `en` need not be the same element. -/

/-- The episode-existence filter of src/upload.py:168-174, evaluated on the
`_id`-selected document. -/
def episodeExistsQuery (d : Doc) (sn en : Nat) : Bool :=
  (d.details.seasons.any fun s => s.season_number == sn) &&
  (d.details.seasons.any fun s => s.episodes.any fun e => e.episode_number == en)

/-- Apply `f` to the first season whose number is `sn`, leaving every other
season unchanged.  This models the positional `$` in the update paths
`details.seasons.$....`, resolved to the element satisfying the query's
`season_number` condition; when no season matches, `update_one` matches
nothing and the document is unchanged. -/
def updateFirstSeason (ss : List Season) (sn : Nat) (f : Season → Season) : List Season :=
  match ss with
  | [] => []
  | s :: rest =>
      if s.season_number == sn then f s :: rest else s :: updateFirstSeason rest sn f

/-- Within one season, the effect of `array_filters=[{"ep.episode_number": en}]`
on `$set {... .episodes.$[ep].file_id: fid}`: every episode numbered `en`
gets its `file_id` replaced. -/
def setFileIdInSeason (en : Nat) (fid : String) (s : Season) : Season :=
  { s with episodes := s.episodes.map fun e =>
      if e.episode_number == en then { e with file_id := some fid } else e }

/-- Within one season, the effect of
`$push {... .episodes: {"episode_number": en, "file_id": fid}}`. -/
def pushEpisodeInSeason (en : Nat) (fid : String) (s : Season) : Season :=
  { s with episodes := s.episodes ++ [{ episode_number := en, file_id := some fid }] }

/-- The update branch of src/upload.py:178-186:
`$set {"details.seasons.$.episodes.$[ep].file_id": fid}` with
`array_filters=[{"ep.episode_number": en}]` in the `$`-selected season. -/
def setEpisodeFileId (d : Doc) (sn en : Nat) (fid : String) : Doc :=
  { d with details :=
      { seasons := updateFirstSeason d.details.seasons sn (setFileIdInSeason en fid) } }

/-- The insert branch of src/upload.py:189-193:
`$push {"details.seasons.$.episodes": {"episode_number": en, "file_id": fid}}`
on the filter `{"_id": .., "details.seasons.season_number": sn}`. -/
def pushEpisode (d : Doc) (sn en : Nat) (fid : String) : Doc :=
  { d with details :=
      { seasons := updateFirstSeason d.details.seasons sn (pushEpisodeInSeason en fid) } }

/-- The TV-show database logic of `process_file_upload_batch`
(src/upload.py:164-193): if the existence filter matches, update in place,
otherwise push a new episode record. -/
def attachEpisodeBatch (d : Doc) (sn en : Nat) (fid : String) : Doc :=
  if episodeExistsQuery d sn en then setEpisodeFileId d sn en fid
  else pushEpisode d sn en fid

/-- The database write of `process_episode_upload` (src/upload.py:375-378):
an unconditional `$push` of a fresh episode record, with no existence check. -/
def processEpisodeUploadDb (d : Doc) (sn en : Nat) (fid : String) : Doc :=
  pushEpisode d sn en fid

/-- All episode records for the (season number, episode number) pair:
episodes numbered `en` inside seasons numbered `q`. -/
def episodeRecords (d : Doc) (q en : Nat) : List Episode :=
  ((d.details.seasons.filter fun s => s.season_number == q).map fun s =>
      s.episodes.filter fun e => e.episode_number == en).flatten

/-- A concrete reachable catalog state: a show whose season 1 already carries
an uploaded episode 3, and whose season 2 has no episodes yet. -/
def c1Doc : Doc :=
  { title := "Show", language := "english", type := "tv show",
    details := { seasons :=
      [ { season_number := 1, episodes := [{ episode_number := 3, file_id := some "a" }] },
        { season_number := 2 } ] } }

/-- C1: calling the batch episode attach twice for season 2, episode 3 with
two different file references leaves season 2 with *no* episode-3 record at
all (the whole state is unchanged): because season 1 already contains an
episode numbered 3, the non-season-scoped existence filter matches and both
calls take the update branch, whose arrayFilters find no episode 3 in
season 2 — nothing is appended and nothing is updated, contradicting the
claimed insert-then-update semantics. -/
theorem c1_cross_season_attach_noop :
    attachEpisodeBatch (attachEpisodeBatch c1Doc 2 3 "b") 2 3 "c" = c1Doc ∧
    episodeRecords (attachEpisodeBatch (attachEpisodeBatch c1Doc 2 3 "b") 2 3 "c") 2 3 = [] := by
  exact ⟨rfl, rfl⟩

/-! ## The one-episode-per-(season number, episode number) invariant -/

/-- Catalog well-formedness: season numbers are pairwise distinct and each
season's episode numbers are pairwise distinct — i.e. at most one episode
record per (season number, episode number) pair. -/
def wellFormed (d : Doc) : Prop :=
  (d.details.seasons.map Season.season_number).Nodup ∧
  ∀ s ∈ d.details.seasons, (s.episodes.map Episode.episode_number).Nodup

theorem updateFirstSeason_map_number (ss : List Season) (sn : Nat) (f : Season → Season)
    (hf : ∀ s, (f s).season_number = s.season_number) :
    (updateFirstSeason ss sn f).map Season.season_number = ss.map Season.season_number := by
  induction ss with
  | nil => rfl
  | cons s rest ih =>
      unfold updateFirstSeason
      by_cases h : s.season_number == sn
      · simp [h, hf]
      · simp [h, ih]

theorem mem_updateFirstSeason {ss : List Season} {sn : Nat} {f : Season → Season} {t : Season}
    (ht : t ∈ updateFirstSeason ss sn f) :
    t ∈ ss ∨ ∃ s ∈ ss, s.season_number = sn ∧ t = f s := by
  induction ss with
  | nil => simp [updateFirstSeason] at ht
  | cons s rest ih =>
      unfold updateFirstSeason at ht
      by_cases h : s.season_number == sn
      · simp [h] at ht
        rcases ht with ht | ht
        · exact Or.inr ⟨s, List.mem_cons_self s rest, by simpa using h, ht⟩
        · exact Or.inl (List.mem_cons_of_mem s ht)
      · simp [h] at ht
        rcases ht with ht | ht
        · exact Or.inl (ht ▸ List.mem_cons_self s rest)
        · rcases ih ht with h1 | ⟨u, hu, h2, h3⟩
          · exact Or.inl (List.mem_cons_of_mem s h1)
          · exact Or.inr ⟨u, List.mem_cons_of_mem s hu, h2, h3⟩

theorem updateFirstSeason_no_match {ss : List Season} {sn : Nat} {f : Season → Season}
    (h : ∀ s ∈ ss, s.season_number ≠ sn) : updateFirstSeason ss sn f = ss := by
  induction ss with
  | nil => rfl
  | cons s rest ih =>
      unfold updateFirstSeason
      have hs : (s.season_number == sn) = false := by
        simpa using h s (List.mem_cons_self s rest)
      simp [hs]
      exact ih fun u hu => h u (List.mem_cons_of_mem s hu)

theorem setFileIdInSeason_map_number (en : Nat) (fid : String) (s : Season) :
    ((setFileIdInSeason en fid s).episodes.map Episode.episode_number) =
      s.episodes.map Episode.episode_number := by
  simp only [setFileIdInSeason, List.map_map]
  refine List.map_congr_left fun e _ => ?_
  by_cases he : e.episode_number = en <;> simp [he]

theorem pushEpisodeInSeason_map_number (en : Nat) (fid : String) (s : Season) :
    ((pushEpisodeInSeason en fid s).episodes.map Episode.episode_number) =
      s.episodes.map Episode.episode_number ++ [en] := by
  simp [pushEpisodeInSeason]

/-- C2 (amended): the batch attach path preserves the invariant.  The update
branch only rewrites `file_id` fields, and the push branch can only fire when
no season of the show contains the episode number at all. -/
theorem c2_batch_attach_preserves_invariant (d : Doc) (sn en : Nat) (fid : String)
    (hd : wellFormed d) : wellFormed (attachEpisodeBatch d sn en fid) := by
  obtain ⟨hnums, heps⟩ := hd
  unfold attachEpisodeBatch
  by_cases hq : episodeExistsQuery d sn en
  · rw [if_pos hq]
    constructor
    · simp only [setEpisodeFileId]
      rw [updateFirstSeason_map_number d.details.seasons sn (setFileIdInSeason en fid)
        (fun s => rfl)]
      exact hnums
    · intro t ht
      simp only [setEpisodeFileId] at ht
      rcases mem_updateFirstSeason ht with h1 | ⟨s, hs, _, h3⟩
      · exact heps t h1
      · subst h3
        rw [setFileIdInSeason_map_number]
        exact heps s hs
  · rw [if_neg hq]
    have hq2 := hq
    unfold episodeExistsQuery at hq2
    rw [Bool.and_eq_true, not_and_or] at hq2
    rcases hq2 with hq2 | hq2
    · -- no season is numbered sn: the push matches nothing
      have hnone : ∀ s ∈ d.details.seasons, s.season_number ≠ sn := by
        intro s hs he
        exact hq2 (List.any_eq_true.mpr ⟨s, hs, by simp [he]⟩)
      constructor
      · simpa [pushEpisode, updateFirstSeason_no_match hnone]
      · intro t ht
        simp only [pushEpisode, updateFirstSeason_no_match hnone] at ht
        exact heps t ht
    · -- no season anywhere contains an episode numbered en
      have hfresh : ∀ s ∈ d.details.seasons, ∀ e ∈ s.episodes, e.episode_number ≠ en := by
        intro s hs e he hee
        exact hq2 (List.any_eq_true.mpr ⟨s, hs,
          List.any_eq_true.mpr ⟨e, he, by simp [hee]⟩⟩)
      constructor
      · simp only [pushEpisode]
        rw [updateFirstSeason_map_number d.details.seasons sn (pushEpisodeInSeason en fid)
          (fun s => rfl)]
        exact hnums
      · intro t ht
        simp only [pushEpisode] at ht
        rcases mem_updateFirstSeason ht with h1 | ⟨s, hs, _, h3⟩
        · exact heps t h1
        · subst h3
          rw [pushEpisodeInSeason_map_number, List.nodup_append]
          refine ⟨heps s hs, List.nodup_singleton en, ?_⟩
          intro a ha hb
          simp only [List.mem_singleton] at hb
          subst hb
          rcases List.mem_map.mp ha with ⟨e, he, hee⟩
          exact hfresh s hs e he hee

/-- A reachable state in which season 1 already holds episode 1. -/
def c2Doc : Doc :=
  { title := "Show", language := "english", type := "tv show",
    details := { seasons :=
      [ { season_number := 1, episodes := [{ episode_number := 1, file_id := some "a" }] } ] } }

instance (d : Doc) : Decidable (wellFormed d) := by
  unfold wellFormed; infer_instance

/-- C2 counterexample: the one-episode-at-a-time upload path
(`process_episode_upload`, src/upload.py:375-378) `$push`es a fresh record
without any existence check, so uploading episode 1 of season 1 again
produces two records with the same (season number, episode number) pair. -/
theorem c2_episode_upload_breaks_invariant :
    ¬ wellFormed (processEpisodeUploadDb c2Doc 1 1 "b") := by
  decide

/-- Witness for the amended C2 theorem at a concrete input. -/
theorem c2_batch_attach_preserves_invariant_witness :
    wellFormed (attachEpisodeBatch c2Doc 1 2 "b") :=
  c2_batch_attach_preserves_invariant c2Doc 1 2 "b" (by decide)

/-! ## utils.py -/

/-- Python `str.lower()` (the handlers only compare ASCII tokens). -/
def pyLower (s : String) : String := String.mk (s.data.map Char.toLower)

/-- Python whitespace for `str.strip()` (ASCII fragment). -/
def isPySpace (c : Char) : Bool :=
  c == ' ' || c == '\t' || c == '\n' || c == '\r'

/-- Python `str.strip()`. -/
def pyStrip (s : String) : String :=
  String.mk (((s.data.dropWhile isPySpace).reverse.dropWhile isPySpace).reverse)

/-- `handle_back` (src/utils.py:31-39).  It reads `message.text.lower()`
unconditionally, so a message whose `text` is `None` (e.g. a bare file
upload) raises `AttributeError`.  On the token "back" (case-insensitive) it
invokes the supplied callback — with the *same* message — and the caller
returns that callback's outcome; otherwise the caller proceeds. -/
def handle_back {α : Type} (m : Msg) (cb : Unit → Except PyError α) :
    Except PyError (Option α) :=
  match m.text with
  | none => .error (.attributeError "NoneType has no attribute lower")
  | some t =>
      if pyLower t == "back" then (cb ()).map some
      else .ok none

/-- `validate_input` (src/utils.py:41-45): case-insensitive membership test. -/
def validate_input (expected_values : List String) (user_input : String) : Bool :=
  (expected_values.map pyLower).contains (pyLower user_input)

theorem handle_back_on_back {α : Type} (m : Msg) (cb : Unit → Except PyError α)
    (t : String) (ht : m.text = some t) (hb : pyLower t = "back") :
    handle_back m cb = (cb ()).map some := by
  unfold handle_back
  rw [ht]
  simp [hb]

theorem handle_back_not_back {α : Type} (m : Msg) (cb : Unit → Except PyError α)
    (t : String) (ht : m.text = some t) (hb : pyLower t ≠ "back") :
    handle_back m cb = .ok none := by
  unfold handle_back
  rw [ht]
  simp [hb]

/-- A plain text message. -/
def textMsg (t : String) : Msg := { chat_id := 0, text := some t }

/-- A message with no text (e.g. a bare media upload). -/
def fileMsg : Msg := { chat_id := 0, content_type := "document", document := some "f1" }

/-! ## Upload workflow steps (src/upload.py)

The upload workflow registers its next-step handlers directly, with no
global-command wrapper: nothing in src/upload.py inspects "/stop" or
"/start" before workflow parsing. -/

/-- Outcome of `process_language_selection_for_upload` (src/upload.py:32-46). -/
inductive UploadLangResult where
  /-- `handle_back` fired: `upload_handler(message)` re-prompts. -/
  | backToEntry
  /-- "Invalid language selection. Try again." is sent and
  `upload_handler(message)` re-prompts: the message was consumed as
  (invalid) workflow input. -/
  | invalidRetry
  /-- valid language: the Movie/TV-Show prompt is sent and the type step
  is registered. -/
  | proceed (language : String)
deriving Repr, DecidableEq

/-- `process_language_selection_for_upload` (src/upload.py:32-46). -/
def process_language_selection_for_upload (m : Msg) :
    Except PyError UploadLangResult :=
  match handle_back m (fun _ => .ok UploadLangResult.backToEntry) with
  | .error e => .error e
  | .ok (some r) => .ok r
  | .ok none =>
      match m.text with
      | none => .error (.attributeError "NoneType has no attribute strip")
      | some t =>
          let language := pyLower (pyStrip t)
          if validate_input ["English", "Hebrew", "Japanese"] language then
            .ok (.proceed language)
          else
            .ok .invalidRetry

/-- Outcome of `process_upload_search` (src/upload.py:62-81). -/
inductive UploadSearchResult where
  /-- `handle_back` fired (its callback cascade is modelled in the
  add-title workflow below). -/
  | backToType
  /-- the `collection.find` raised: the exception is caught, logged and
  "An error occurred while searching the database. Please try again." is
  sent — the step returns normally. -/
  | dbErrorReported
  /-- no matches: re-prompt and re-register the same step. -/
  | noMatches (query : String)
  /-- matches found: option keyboard and selection step registered. -/
  | selectList (options : List String) (results : List Doc)
deriving Repr, DecidableEq

/-- `process_upload_search` (src/upload.py:62-81), with the outcome of the
`collection.find` call passed in as an oracle (`.error` = the pymongo call
raised). -/
def process_upload_search (find : Except PyError (List Doc)) (m : Msg)
    (language item_type : String) : Except PyError UploadSearchResult :=
  match handle_back m (fun _ => .ok UploadSearchResult.backToType) with
  | .error e => .error e
  | .ok (some r) => .ok r
  | .ok none =>
      match m.text with
      | none => .error (.attributeError "NoneType has no attribute strip")
      | some t =>
          let query := pyStrip t
          match find with
          | .error _ => .ok .dbErrorReported
          | .ok results =>
              if results.isEmpty then .ok (.noMatches query)
              else .ok (.selectList
                ((results.take 5).map Doc.title ++ ["Back"]) results)

/-- C3 counterexample: in the upload workflow the exact stop token "/stop"
reaches workflow-specific parsing — the language step consumes it as
ordinary input, fails validation and re-prompts; no global-command check
runs and the process is not terminated. -/
theorem c3_upload_step_consumes_stop_token :
    process_language_selection_for_upload (textMsg "/stop") = .ok .invalidRetry ∧
    process_language_selection_for_upload (textMsg "/start") = .ok .invalidRetry := by
  exact ⟨rfl, rfl⟩

/-- C7 counterexample: a message with no text (a bare file upload) delivered
to the text-expecting upload language step raises `AttributeError` out of
the handler (`message.text.lower()` in `handle_back`, src/utils.py:35);
nothing catches it at the step boundary and no user-visible message is
produced. -/
theorem c7_no_text_message_raises :
    process_language_selection_for_upload fileMsg =
      .error (.attributeError "NoneType has no attribute lower") := by
  rfl

/-- C7 (amended): faults *are* converted at the explicitly wrapped
operations — when the catalog query inside `process_upload_search` raises,
the `try/except` at src/upload.py:68-73 catches it and the step returns
normally after reporting a retryable error to the chat. -/
theorem c7_upload_search_catches_db_fault
    (e : PyError) (t language item_type : String)
    (hb : pyLower t ≠ "back") :
    process_upload_search (.error e) (textMsg t) language item_type =
      .ok .dbErrorReported := by
  unfold process_upload_search handle_back textMsg
  simp [hb]

/-- Witness for the amended C7 theorem. -/
theorem c7_upload_search_catches_db_fault_witness :
    pyLower "breaking" ≠ "back" ∧
    process_upload_search (.error (.dbError "down")) (textMsg "breaking")
      "english" "movie" = .ok .dbErrorReported :=
  ⟨by decide,
   c7_upload_search_catches_db_fault (.dbError "down") "breaking" "english" "movie"
     (by decide)⟩

/-! ## TMDB lookups (src/utils.py:47-80) and the catalog store (src/database.py) -/

/-- One TMDB search result, as read by add_title.py: optional `id`, `name`
(TV) and `title` (movie) keys.  `none` models an absent key. -/
structure TmdbResult where
  id : Option Nat := none
  name : Option String := none
  title : Option String := none
deriving Repr, DecidableEq

/-- Python `result.get('name') or result.get('title', '')` (truthiness:
`None` and `""` fall through to the second operand). -/
def nameOrTitle (r : TmdbResult) : String :=
  match r.name with
  | some n => if n == "" then r.title.getD "" else n
  | none => r.title.getD ""

/-- Python `result.get('name', result.get('title'))` (key presence, not
truthiness). -/
def nameOrTitleGet (r : TmdbResult) : Option String :=
  match r.name with
  | some n => some n
  | none => r.title

/-- Oracles for the two TMDB HTTP calls.  `search` models `search_tmdb`,
which already catches `RequestException` and returns `[]` (src/utils.py:47-63),
so it is total here; `detailsResp` is the raw outcome of the HTTP GET inside
`get_tmdb_details` (`.error` = `RequestException`). -/
structure TmdbEnv where
  search : String → String → List TmdbResult
  detailsResp : Option Nat → String → Except Unit Details

/-- `get_tmdb_details` (src/utils.py:65-80): on `RequestException` the
exception is caught, logged, and the empty blob `{}` is returned — the
function itself never raises. -/
def get_tmdb_details (env : TmdbEnv) (item_id : Option Nat) (item_type : String) : Details :=
  match env.detailsResp item_id item_type with
  | .ok d => d
  | .error _ => {}

/-- The two collections of src/database.py. -/
structure Store where
  movies : List Doc := []
  tv_shows : List Doc := []
deriving Repr, DecidableEq

/-- `collection.insert_one(data)` with
`collection = movies_collection if item_type == "movie" else tv_shows_collection`
(src/add_title.py:134-135).  src/database.py:29-35 creates only *non-unique*
indexes (`create_index("title")`, no `unique=True`) and `_id`s are freshly
generated, so `insert_one` never raises `DuplicateKeyError`: it always
appends. -/
def insert_one (st : Store) (item_type : String) (d : Doc) : Store :=
  if item_type == "movie" then { st with movies := st.movies ++ [d] }
  else { st with tv_shows := st.tv_shows ++ [d] }

/-! ## Add-New-Title workflow (src/add_title.py)

Each `register_next_step_handler` in this file wraps the step in
`lambda msg: check_global_commands(bot, msg, step, *args)`, so every incoming
message for a registered add-title step passes through the global-command
check first.  Step functions are embedded as functions of the raw Python
argument list so that the arity of each `def` is preserved: a call whose
argument list does not fit the parameter list raises `TypeError`, exactly as
in Python. -/

/-- A positional argument forwarded to a step function. -/
inductive PyArg where
  | str (s : String)
  | results (rs : List TmdbResult)
deriving Repr, DecidableEq

/-- The next add-title step registered with `register_next_step_handler`,
with its bound arguments. -/
inductive AddNext where
  | langSelect
  | typeSelect (language : String)
  | titleEntry (language item_type : String)
  | tmdbSelect (language item_type : String) (results : List TmdbResult)
deriving Repr, DecidableEq

/-- Result of one add-title step: the catalog store after the step, the
texts sent to the chat, and the continuation it registered (if any). -/
structure AddResult where
  store : Store
  sent : List String := []
  next : Option AddNext := none
deriving Repr, DecidableEq

/-- `add_new_title_handler` (src/add_title.py:37-45): prompt for a language
and register the language step (wrapped in the global-command check). -/
def add_new_title_handler (st : Store) : Except PyError AddResult :=
  .ok { store := st, sent := ["Choose a language for the title:"],
        next := some .langSelect }

/-- `process_language_selection_for_add` (src/add_title.py:47-64).  Its
Python parameter list is `(message)`: any extra positional argument raises
`TypeError`. -/
def process_language_selection_for_add (st : Store) (m : Msg) (args : List PyArg) :
    Except PyError AddResult :=
  match args with
  | [] =>
      match handle_back m (fun _ => add_new_title_handler st) with
      | .error e => .error e
      | .ok (some r) => .ok r
      | .ok none =>
          match m.text with
          | none => .error (.attributeError "NoneType has no attribute strip")
          | some t =>
              let language := pyLower (pyStrip t)
              if validate_input ["English", "Hebrew", "Japanese"] language then
                .ok { store := st, sent := ["Is it a Movie or TV Show?"],
                      next := some (.typeSelect language) }
              else
                match add_new_title_handler st with
                | .error e => .error e
                | .ok r => .ok { r with sent := "Invalid language. Try again." :: r.sent }
  | _ => .error (.typeError "process_language_selection_for_add")

/-- `process_type_selection_for_add` (src/add_title.py:66-81).  Parameter
list `(message, language)`.  Note src/add_title.py:71: `handle_back` is
given `process_language_selection_for_add` *plus the `language` argument*,
which that function's parameter list does not accept. -/
def process_type_selection_for_add (st : Store) (m : Msg) (args : List PyArg) :
    Except PyError AddResult :=
  match args with
  | [PyArg.str language] =>
      match handle_back m
          (fun _ => process_language_selection_for_add st m [PyArg.str language]) with
      | .error e => .error e
      | .ok (some r) => .ok r
      | .ok none =>
          match m.text with
          | none => .error (.attributeError "NoneType has no attribute strip")
          | some t =>
              let item_type := pyLower (pyStrip t)
              if validate_input ["Movie", "TV Show"] item_type then
                .ok { store := st, sent := ["Enter the title:"],
                      next := some (.titleEntry language item_type) }
              else
                match process_language_selection_for_add st m [] with
                | .error e => .error e
                | .ok r => .ok { r with sent := "Invalid type. Try again." :: r.sent }
  | _ => .error (.typeError "process_type_selection_for_add")

/-- `process_title_entry` (src/add_title.py:83-107).  Parameter list
`(message, language, item_type)`; `handle_back` at line 88 forwards only
`language` to `process_type_selection_for_add`, which fits its parameter
list. -/
def process_title_entry (env : TmdbEnv) (st : Store) (m : Msg) (args : List PyArg) :
    Except PyError AddResult :=
  match args with
  | [PyArg.str language, PyArg.str item_type] =>
      match handle_back m
          (fun _ => process_type_selection_for_add st m [PyArg.str language]) with
      | .error e => .error e
      | .ok (some r) => .ok r
      | .ok none =>
          match m.text with
          | none => .error (.attributeError "NoneType has no attribute strip")
          | some t =>
              let title := pyStrip t
              let results := env.search title item_type
              if results.isEmpty then
                .ok { store := st,
                      sent := ["No matches found for '" ++ title ++
                        "'. Try again or type 'Back'."],
                      next := some (.titleEntry language item_type) }
              else
                .ok { store := st, sent := ["Select the closest match:"],
                      next := some (.tmdbSelect language item_type results) }
  | _ => .error (.typeError "process_title_entry")

/-- `process_tmdb_selection` (src/add_title.py:109-142).  Parameter list
`(message, language, item_type, results)`.  The `try` block cannot raise:
`get_tmdb_details` catches its own failures and `insert_one` always
succeeds (no unique index), so the `except` at lines 138-142 — including
the "This title already exists in the database." message — is unreachable.
A result carrying neither a `name` nor a `title` key would store Python
`None` as the title; that corner is modelled as `""`. -/
def process_tmdb_selection (env : TmdbEnv) (st : Store) (m : Msg) (args : List PyArg) :
    Except PyError AddResult :=
  match args with
  | [PyArg.str language, PyArg.str item_type, PyArg.results results] =>
      match handle_back m
          (fun _ => process_title_entry env st m [PyArg.str language, PyArg.str item_type]) with
      | .error e => .error e
      | .ok (some r) => .ok r
      | .ok none =>
          match m.text with
          | none => .error (.attributeError "NoneType has no attribute strip")
          | some t =>
              let selected_title := pyStrip t
              match results.find? (fun r =>
                  pyLower (nameOrTitle r) == pyLower selected_title) with
              | none =>
                  match process_title_entry env st m
                      [PyArg.str language, PyArg.str item_type] with
                  | .error e => .error e
                  | .ok r => .ok { r with sent := "Invalid selection. Try again." :: r.sent }
              | some mtch =>
                  let details := get_tmdb_details env mtch.id item_type
                  let data : Doc :=
                    { title := (nameOrTitleGet mtch).getD "",
                      language := language, type := item_type,
                      details := details, created_at := m.date }
                  .ok { store := insert_one st item_type data,
                        sent := ["Title '" ++ data.title ++ "' added successfully."],
                        next := none }
  | _ => .error (.typeError "process_tmdb_selection")

/-- Outcome of a message delivered to a registered (wrapped) add-title step. -/
inductive RunOutcome where
  /-- `os._exit(0)`: the process terminates. -/
  | exit
  | res (r : AddResult)
deriving Repr, DecidableEq

/-- `check_global_commands` (src/add_title.py:15-28).  `"/stop"` (exact
match) sends a goodbye and calls `os._exit(0)`.  `"/start"` executes
`from bot import start_command` — but src/bot.py defines no
`start_command`, so the import raises `ImportError` instead of re-entering
the main menu.  Any other message runs the wrapped step. -/
def check_global_commands (m : Msg) (next_step : Unit → Except PyError AddResult) :
    Except PyError RunOutcome :=
  if m.text == some "/stop" then .ok .exit
  else if m.text == some "/start" then
    .error (.importError "cannot import name start_command from bot")
  else
    match next_step () with
    | .error e => .error e
    | .ok r => .ok (.res r)

/-- One incoming message delivered to the registered add-title continuation:
every registration in src/add_title.py wraps the step in
`check_global_commands`. -/
def registeredAddStep (env : TmdbEnv) (st : Store) (n : AddNext) (m : Msg) :
    Except PyError RunOutcome :=
  check_global_commands m fun _ =>
    match n with
    | .langSelect => process_language_selection_for_add st m []
    | .typeSelect language => process_type_selection_for_add st m [.str language]
    | .titleEntry language item_type =>
        process_title_entry env st m [.str language, .str item_type]
    | .tmdbSelect language item_type results =>
        process_tmdb_selection env st m [.str language, .str item_type, .results results]

/-- Feed a list of messages through the registered add-title continuations,
starting from step `n`; stops on process exit, on an uncaught fault, or when
a step registers no continuation.  The returned `AddResult` is that of the
last step that ran. -/
def runAddFrom (env : TmdbEnv) (st : Store) (n : AddNext) :
    List Msg → Except PyError RunOutcome
  | [] => .ok (.res { store := st, next := some n })
  | m :: rest =>
      match registeredAddStep env st n m with
      | .error e => .error e
      | .ok .exit => .ok .exit
      | .ok (.res r) =>
          match rest, r.next with
          | [], _ => .ok (.res r)
          | _ :: _, none => .ok (.res r)
          | _ :: _, some n2 => runAddFrom env r.store n2 rest

/-- A TMDB environment in which searches find nothing and the details call
fails. -/
def emptyTmdbEnv : TmdbEnv :=
  { search := fun _ _ => [], detailsResp := fun _ _ => .error () }

/-- C3 (amended): in the add-title workflow every registered step is wrapped
in `check_global_commands`, so the exact token "/stop" terminates the
process and "/start" never reaches the step's workflow parsing (it fails on
the missing `bot.start_command` import instead of re-entering the menu) —
for every step of the workflow and every bound context. -/
theorem c3_add_title_steps_guarded (env : TmdbEnv) (st : Store) (n : AddNext) :
    registeredAddStep env st n (textMsg "/stop") = .ok .exit ∧
    registeredAddStep env st n (textMsg "/start") =
      .error (.importError "cannot import name start_command from bot") := by
  exact ⟨rfl, rfl⟩

/-- C4 counterexample: at the type-selection step (src/add_title.py:66-81),
sending "Back" does not restore the language step — `handle_back` forwards
the bound `language` argument to `process_language_selection_for_add`,
whose parameter list is `(message)` only, and the call raises `TypeError`. -/
theorem c4_back_at_type_selection_raises :
    process_type_selection_for_add {} (textMsg "Back") [.str "english"] =
      .error (.typeError "process_language_selection_for_add") := by
  rfl

/-- C4 (amended): a "back" message (case-insensitive) is intercepted before
the current step's own validation and control transfers to the configured
preceding callback with the current step's bound arguments and the *same*
message — at the title-entry step, "back" yields exactly the type-selection
step applied to the bound language (which then re-processes the token
itself: restoration cascades instead of popping one frame). -/
theorem c4_back_runs_previous_callback (env : TmdbEnv) (st : Store)
    (t language item_type : String) (hb : pyLower t = "back") :
    process_title_entry env st (textMsg t) [.str language, .str item_type] =
      process_type_selection_for_add st (textMsg t) [.str language] := by
  have hback := handle_back_on_back (textMsg t)
    (fun _ => process_type_selection_for_add st (textMsg t) [PyArg.str language]) t rfl hb
  simp only [process_title_entry, hback]
  cases h : process_type_selection_for_add st (textMsg t) [.str language] <;>
    simp [h, Except.map]

/-- Witness for the amended C4 theorem: at a concrete input the transfer
equation holds (and both sides in fact end in the `TypeError` of the
cascaded back-chain). -/
theorem c4_back_runs_previous_callback_witness :
    pyLower "Back" = "back" ∧
    process_title_entry emptyTmdbEnv {} (textMsg "Back") [.str "english", .str "movie"] =
      process_type_selection_for_add {} (textMsg "Back") [.str "english"] :=
  ⟨by decide,
   c4_back_runs_previous_callback emptyTmdbEnv {} "Back" "english" "movie" (by decide)⟩

/-! ## C5: running the Add-New-Title workflow twice -/

theorem check_global_pass (t : String) (k : Unit → Except PyError AddResult)
    (h1 : t ≠ "/stop") (h2 : t ≠ "/start") :
    check_global_commands (textMsg t) k = (k ()).map RunOutcome.res := by
  unfold check_global_commands
  have e1 : ((textMsg t).text == some "/stop") = false := by simp [textMsg, h1]
  have e2 : ((textMsg t).text == some "/start") = false := by simp [textMsg, h2]
  rw [e1, e2]
  cases hk : k () <;> simp [hk, Except.map]

theorem lang_step_valid (st : Store) (t : String)
    (h3 : pyLower t ≠ "back")
    (h4 : validate_input ["English", "Hebrew", "Japanese"] (pyLower (pyStrip t)) = true) :
    process_language_selection_for_add st (textMsg t) [] =
      .ok { store := st, sent := ["Is it a Movie or TV Show?"],
            next := some (.typeSelect (pyLower (pyStrip t))) } := by
  have hb := handle_back_not_back (textMsg t) (fun _ => add_new_title_handler st) t rfl h3
  simp only [process_language_selection_for_add, hb]
  rw [show (textMsg t).text = some t from rfl]
  simp [h4]

theorem type_step_valid (st : Store) (language t : String)
    (h3 : pyLower t ≠ "back")
    (h4 : validate_input ["Movie", "TV Show"] (pyLower (pyStrip t)) = true) :
    process_type_selection_for_add st (textMsg t) [.str language] =
      .ok { store := st, sent := ["Enter the title:"],
            next := some (.titleEntry language (pyLower (pyStrip t))) } := by
  have hb := handle_back_not_back (textMsg t)
    (fun _ => process_language_selection_for_add st (textMsg t) [PyArg.str language]) t rfl h3
  simp only [process_type_selection_for_add, hb]
  rw [show (textMsg t).text = some t from rfl]
  simp [h4]

theorem title_step_results (env : TmdbEnv) (st : Store) (language item_type t : String)
    (r0 : TmdbResult) (rs1 : List TmdbResult)
    (h3 : pyLower t ≠ "back")
    (hsearch : env.search (pyStrip t) item_type = r0 :: rs1) :
    process_title_entry env st (textMsg t) [.str language, .str item_type] =
      .ok { store := st, sent := ["Select the closest match:"],
            next := some (.tmdbSelect language item_type (r0 :: rs1)) } := by
  have hb := handle_back_not_back (textMsg t)
    (fun _ => process_type_selection_for_add st (textMsg t) [PyArg.str language]) t rfl h3
  simp only [process_title_entry, hb]
  rw [show (textMsg t).text = some t from rfl]
  simp [hsearch]

theorem tmdb_step_inserts (env : TmdbEnv) (st : Store) (language item_type t : String)
    (r0 : TmdbResult) (rs1 : List TmdbResult)
    (h3 : pyLower t ≠ "back")
    (hmatch : pyLower (pyStrip t) = pyLower (nameOrTitle r0)) :
    process_tmdb_selection env st (textMsg t) [.str language, .str item_type, .results (r0 :: rs1)] =
      .ok { store := insert_one st item_type
              { title := (nameOrTitleGet r0).getD "", language := language,
                type := item_type, details := get_tmdb_details env r0.id item_type,
                created_at := 0 },
            sent := ["Title '" ++ ((nameOrTitleGet r0).getD "") ++ "' added successfully."],
            next := none } := by
  have hb := handle_back_not_back (textMsg t)
    (fun _ => process_title_entry env st (textMsg t) [PyArg.str language, PyArg.str item_type])
    t rfl h3
  simp only [process_tmdb_selection, hb]
  rw [show (textMsg t).text = some t from rfl]
  have hfind : (r0 :: rs1).find? (fun r =>
      pyLower (nameOrTitle r) == pyLower (pyStrip t)) = some r0 := by
    rw [List.find?_cons_of_pos]
    rw [hmatch]
    simp
  simp [hfind, textMsg]

/-- C5 counterexample inputs: a store, a TMDB environment with one movie
match for "Dune", and the four user messages of one complete Add run. -/
def c5Env : TmdbEnv :=
  { search := fun q _ => if q == "Dune" then [{ id := some 1, title := some "Dune" }] else [],
    detailsResp := fun _ _ => .ok {} }

def c5Msgs : List Msg := [textMsg "English", textMsg "Movie", textMsg "Dune", textMsg "Dune"]

def c5Doc : Doc :=
  { title := "Dune", language := "english", type := "movie", details := {}, created_at := 0 }

/-- C5 counterexample: running the identical Add-New-Title sequence a second
time does *not* fail with a duplicate-key error — the store's only indexes
are non-unique (src/database.py), so the second `insert_one` succeeds, a
second identical record is appended, and the success message (not
"already exists") is sent again. -/
theorem c5_second_run_appends_duplicate :
    runAddFrom c5Env {} .langSelect c5Msgs =
      .ok (.res { store := { movies := [c5Doc] },
                  sent := ["Title 'Dune' added successfully."], next := none }) ∧
    runAddFrom c5Env { movies := [c5Doc] } .langSelect c5Msgs =
      .ok (.res { store := { movies := [c5Doc, c5Doc] },
                  sent := ["Title 'Dune' added successfully."], next := none }) := by
  exact ⟨rfl, rfl⟩

/-- C5 (amended): for every valid language and kind, a search with at least
one metadata match and a valid selection of its first candidate, one
complete Add run inserts exactly one Title whose language, kind and display
label match, and reports success; running the identical sequence a second
time does not raise a duplicate-key error: it appends a second identical
record and reports success again. -/
theorem c5_add_twice_two_records
    (env : TmdbEnv) (st : Store) (l k q s : String) (r0 : TmdbResult) (rs1 : List TmdbResult)
    (hl1 : l ≠ "/stop") (hl2 : l ≠ "/start") (hl3 : pyLower l ≠ "back")
    (hl4 : validate_input ["English", "Hebrew", "Japanese"] (pyLower (pyStrip l)) = true)
    (hk1 : k ≠ "/stop") (hk2 : k ≠ "/start") (hk3 : pyLower k ≠ "back")
    (hk4 : validate_input ["Movie", "TV Show"] (pyLower (pyStrip k)) = true)
    (hq1 : q ≠ "/stop") (hq2 : q ≠ "/start") (hq3 : pyLower q ≠ "back")
    (hsearch : env.search (pyStrip q) (pyLower (pyStrip k)) = r0 :: rs1)
    (hs1 : s ≠ "/stop") (hs2 : s ≠ "/start") (hs3 : pyLower s ≠ "back")
    (hmatch : pyLower (pyStrip s) = pyLower (nameOrTitle r0)) :
    runAddFrom env st .langSelect [textMsg l, textMsg k, textMsg q, textMsg s] =
      .ok (.res { store := insert_one st (pyLower (pyStrip k))
                    { title := (nameOrTitleGet r0).getD "",
                      language := pyLower (pyStrip l),
                      type := pyLower (pyStrip k),
                      details := get_tmdb_details env r0.id (pyLower (pyStrip k)),
                      created_at := 0 },
                  sent := ["Title '" ++ ((nameOrTitleGet r0).getD "") ++ "' added successfully."],
                  next := none }) ∧
    runAddFrom env
        (insert_one st (pyLower (pyStrip k))
          { title := (nameOrTitleGet r0).getD "",
            language := pyLower (pyStrip l),
            type := pyLower (pyStrip k),
            details := get_tmdb_details env r0.id (pyLower (pyStrip k)),
            created_at := 0 })
        .langSelect [textMsg l, textMsg k, textMsg q, textMsg s] =
      .ok (.res { store := insert_one
                    (insert_one st (pyLower (pyStrip k))
                      { title := (nameOrTitleGet r0).getD "",
                        language := pyLower (pyStrip l),
                        type := pyLower (pyStrip k),
                        details := get_tmdb_details env r0.id (pyLower (pyStrip k)),
                        created_at := 0 })
                    (pyLower (pyStrip k))
                    { title := (nameOrTitleGet r0).getD "",
                      language := pyLower (pyStrip l),
                      type := pyLower (pyStrip k),
                      details := get_tmdb_details env r0.id (pyLower (pyStrip k)),
                      created_at := 0 },
                  sent := ["Title '" ++ ((nameOrTitleGet r0).getD "") ++ "' added successfully."],
                  next := none }) := by
  have main : ∀ st0 : Store,
      runAddFrom env st0 .langSelect [textMsg l, textMsg k, textMsg q, textMsg s] =
        .ok (.res { store := insert_one st0 (pyLower (pyStrip k))
                      { title := (nameOrTitleGet r0).getD "",
                        language := pyLower (pyStrip l),
                        type := pyLower (pyStrip k),
                        details := get_tmdb_details env r0.id (pyLower (pyStrip k)),
                        created_at := 0 },
                    sent := ["Title '" ++ ((nameOrTitleGet r0).getD "") ++ "' added successfully."],
                    next := none }) := by
    intro st0
    have s1 : registeredAddStep env st0 .langSelect (textMsg l) =
        .ok (.res { store := st0, sent := ["Is it a Movie or TV Show?"],
                    next := some (.typeSelect (pyLower (pyStrip l))) }) := by
      unfold registeredAddStep
      rw [check_global_pass l _ hl1 hl2]
      simp only [lang_step_valid st0 l hl3 hl4, Except.map]
    have s2 : registeredAddStep env st0 (.typeSelect (pyLower (pyStrip l))) (textMsg k) =
        .ok (.res { store := st0, sent := ["Enter the title:"],
                    next := some (.titleEntry (pyLower (pyStrip l)) (pyLower (pyStrip k))) }) := by
      unfold registeredAddStep
      rw [check_global_pass k _ hk1 hk2]
      simp only [type_step_valid st0 (pyLower (pyStrip l)) k hk3 hk4, Except.map]
    have s3 : registeredAddStep env st0
        (.titleEntry (pyLower (pyStrip l)) (pyLower (pyStrip k))) (textMsg q) =
        .ok (.res { store := st0, sent := ["Select the closest match:"],
                    next := some (.tmdbSelect (pyLower (pyStrip l)) (pyLower (pyStrip k))
                      (r0 :: rs1)) }) := by
      unfold registeredAddStep
      rw [check_global_pass q _ hq1 hq2]
      simp only [title_step_results env st0 (pyLower (pyStrip l)) (pyLower (pyStrip k))
        q r0 rs1 hq3 hsearch, Except.map]
    have s4 : registeredAddStep env st0
        (.tmdbSelect (pyLower (pyStrip l)) (pyLower (pyStrip k)) (r0 :: rs1)) (textMsg s) =
        .ok (.res { store := insert_one st0 (pyLower (pyStrip k))
                      { title := (nameOrTitleGet r0).getD "",
                        language := pyLower (pyStrip l),
                        type := pyLower (pyStrip k),
                        details := get_tmdb_details env r0.id (pyLower (pyStrip k)),
                        created_at := 0 },
                    sent := ["Title '" ++ ((nameOrTitleGet r0).getD "") ++ "' added successfully."],
                    next := none }) := by
      unfold registeredAddStep
      rw [check_global_pass s _ hs1 hs2]
      simp only [tmdb_step_inserts env st0 (pyLower (pyStrip l)) (pyLower (pyStrip k))
        s r0 rs1 hs3 hmatch, Except.map]
    simp only [runAddFrom, s1, s2, s3, s4]
  exact ⟨main st, main _⟩

/-- Witness for the amended C5 theorem at the concrete counterexample
inputs. -/
theorem c5_add_twice_two_records_witness :
    runAddFrom c5Env {} .langSelect [textMsg "English", textMsg "Movie",
        textMsg "Dune", textMsg "Dune"] =
      .ok (.res { store := insert_one {} (pyLower (pyStrip "Movie"))
                    { title := "Dune", language := pyLower (pyStrip "English"),
                      type := pyLower (pyStrip "Movie"),
                      details := get_tmdb_details c5Env (some 1) (pyLower (pyStrip "Movie")),
                      created_at := 0 },
                  sent := ["Title 'Dune' added successfully."], next := none }) := by
  have h := c5_add_twice_two_records c5Env {} "English" "Movie" "Dune" "Dune"
    { id := some 1, title := some "Dune" } []
    (by decide) (by decide) (by decide) (by decide)
    (by decide) (by decide) (by decide) (by decide)
    (by decide) (by decide) (by decide) (by rfl)
    (by decide) (by decide) (by decide) (by decide)
  exact h.1

/-! ## C10: a title saved under a failed details lookup -/

/-- Outcome of `navigate_tv_show` (src/upload.py:284-305). -/
inductive NavigateResult where
  /-- "No seasons found for this TV show." is sent and the back callback
  re-runs: no upload step is ever registered for this show. -/
  | noSeasons
  /-- the season keyboard is offered and the season-selection step is
  registered. -/
  | seasonMenu (options : List String)
deriving Repr, DecidableEq

/-- `navigate_tv_show` (src/upload.py:284-305), season-menu construction
from `tv_show.get("details", {}).get("seasons", [])`. -/
def navigate_tv_show (tv : Doc) : NavigateResult :=
  if tv.details.seasons.isEmpty then .noSeasons
  else .seasonMenu ((tv.details.seasons.map fun s =>
    "Season " ++ toString s.season_number) ++ ["Back"])

theorem attach_no_seasons (d : Doc) (h : d.details.seasons = [])
    (sn en : Nat) (fid : String) :
    attachEpisodeBatch d sn en fid = d ∧ processEpisodeUploadDb d sn en fid = d := by
  have hq : episodeExistsQuery d sn en = false := by
    simp [episodeExistsQuery, h]
  have hpush : pushEpisode d sn en fid = d := by
    cases d with
    | mk title language ty details file_id channel_message_id created_at =>
        cases details with
        | mk seasons =>
            simp only [Details.mk.injEq] at h
            subst h
            simp [pushEpisode, updateFirstSeason]
  refine ⟨?_, hpush⟩
  unfold attachEpisodeBatch
  rw [hq]
  simpa using hpush

/-- C10: when the TMDB details request fails during the final Add step, the
lookup returns the empty blob `{}` instead of raising, the Title is inserted
with that empty blob, the upload navigation for that show finds no seasons,
and neither upload path can ever attach an episode file to it (both database
updates match nothing and leave the document unchanged). -/
theorem c10_failed_details_lookup (env : TmdbEnv) (st : Store)
    (language item_type t : String) (r0 : TmdbResult) (rs1 : List TmdbResult)
    (herr : env.detailsResp r0.id item_type = .error ())
    (h3 : pyLower t ≠ "back")
    (hmatch : pyLower (pyStrip t) = pyLower (nameOrTitle r0)) :
    get_tmdb_details env r0.id item_type = {} ∧
    process_tmdb_selection env st (textMsg t)
        [.str language, .str item_type, .results (r0 :: rs1)] =
      .ok { store := insert_one st item_type
              { title := (nameOrTitleGet r0).getD "", language := language,
                type := item_type, details := {}, created_at := 0 },
            sent := ["Title '" ++ ((nameOrTitleGet r0).getD "") ++ "' added successfully."],
            next := none } ∧
    navigate_tv_show
        { title := (nameOrTitleGet r0).getD "", language := language,
          type := item_type, details := {}, created_at := 0 } = .noSeasons ∧
    ∀ sn en fid,
      attachEpisodeBatch
          { title := (nameOrTitleGet r0).getD "", language := language,
            type := item_type, details := {}, created_at := 0 } sn en fid =
        { title := (nameOrTitleGet r0).getD "", language := language,
          type := item_type, details := {}, created_at := 0 } ∧
      processEpisodeUploadDb
          { title := (nameOrTitleGet r0).getD "", language := language,
            type := item_type, details := {}, created_at := 0 } sn en fid =
        { title := (nameOrTitleGet r0).getD "", language := language,
          type := item_type, details := {}, created_at := 0 } := by
  have hdet : get_tmdb_details env r0.id item_type = {} := by
    simp [get_tmdb_details, herr]
  refine ⟨hdet, ?_, rfl, fun sn en fid => attach_no_seasons _ rfl sn en fid⟩
  rw [tmdb_step_inserts env st language item_type t r0 rs1 h3 hmatch, hdet]

/-- Witness for C10 at a concrete failing lookup. -/
theorem c10_failed_details_lookup_witness :
    emptyTmdbEnv.detailsResp (some 5) "tv show" = .error () ∧
    pyLower "ShowX" ≠ "back" ∧
    pyLower (pyStrip "ShowX") =
      pyLower (nameOrTitle { id := some 5, name := some "ShowX" }) ∧
    navigate_tv_show
        { title := "ShowX", language := "english",
          type := "tv show", details := {}, created_at := 0 } = .noSeasons :=
  ⟨rfl, by decide, by decide,
   (c10_failed_details_lookup emptyTmdbEnv {} "english" "tv show" "ShowX"
      { id := some 5, name := some "ShowX" } [] rfl (by decide) (by decide)).2.2.1⟩

/-! ## C8: archival forwarding is non-fatal (src/upload.py:124-214, 387-433) -/

/-- Observable side effects of the upload branches, in execution order. -/
inductive UpEffect where
  /-- `movies_collection.update_one({"_id": ..}, {"$set": {"file_id": fid}})`
  (src/upload.py:128-131) -/
  | dbSetMovieFileId (fid : String)
  /-- the TV episode check-then-update-or-push of src/upload.py:167-193 -/
  | dbEpisodeUpsert (sn en : Nat) (fid : String)
  /-- `bot.send_document(STORAGE_CHANNEL_ID, ..)` (src/upload.py:401-405) -/
  | forwardSend (fid : String)
  /-- the `channel_message_id` back-link write (src/upload.py:410-428) -/
  | dbSetChannelMsgId (mid : Nat)
  /-- `bot.send_message(chat_id, text)` -/
  | userMsg (t : String)
deriving Repr, DecidableEq

/-- The back-link write for a TV episode (src/upload.py:417-428):
`$set {"details.seasons.$[s].episodes.$[e].channel_message_id": mid}` with
arrayFilters on season and episode number — every episode numbered `en` in
every season numbered `sn`. -/
def setEpisodeChannelMsgId (d : Doc) (sn en : Nat) (mid : Nat) : Doc :=
  { d with details := { seasons := d.details.seasons.map fun s =>
      if s.season_number == sn then
        { s with episodes := s.episodes.map fun e =>
            if e.episode_number == en then { e with channel_message_id := some mid }
            else e }
      else s } }

/-- `forward_to_storage_channel` (src/upload.py:387-433) for a movie.
`sendOut` is the outcome of `bot.send_document` (`none` = transport error),
`backlinkOk` whether the `channel_message_id` write succeeds.  Every
exception inside is caught at lines 431-433 and surfaced as `none`. -/
def forward_to_storage_channel_movie (d : Doc) (fid : String)
    (sendOut : Option Nat) (backlinkOk : Bool) : Doc × Option Nat × List UpEffect :=
  match sendOut with
  | none => (d, none, [.forwardSend fid])
  | some mid =>
      if backlinkOk then
        ({ d with channel_message_id := some mid }, some mid,
         [.forwardSend fid, .dbSetChannelMsgId mid])
      else (d, none, [.forwardSend fid])

/-- `forward_to_storage_channel` for a TV episode.  The back-link write is
guarded by Python truthiness of the season and episode numbers
(src/upload.py:415) and by its own query, which matches like the
existence filter. -/
def forward_to_storage_channel_tv (d : Doc) (sn en : Nat) (fid : String)
    (sendOut : Option Nat) (backlinkOk : Bool) : Doc × Option Nat × List UpEffect :=
  match sendOut with
  | none => (d, none, [.forwardSend fid])
  | some mid =>
      if backlinkOk then
        if sn != 0 && en != 0 then
          ((if episodeExistsQuery d sn en then setEpisodeChannelMsgId d sn en mid else d),
           some mid, [.forwardSend fid, .dbSetChannelMsgId mid])
        else (d, some mid, [.forwardSend fid])
      else (d, none, [.forwardSend fid])

/-- The movie branch of `process_file_upload_batch` (src/upload.py:125-152):
write `file_id`, then forward; a `None` from the forwarder yields the soft
"uploaded successfully, but forwarding to channel failed." message. -/
def movie_upload_branch (d : Doc) (fid fname : String)
    (sendOut : Option Nat) (backlinkOk : Bool) : Doc × List UpEffect :=
  match forward_to_storage_channel_movie { d with file_id := some fid } fid sendOut backlinkOk with
  | (d2, some _, tr) =>
      (d2, .dbSetMovieFileId fid :: tr ++
        [.userMsg ("Movie file (" ++ fname ++ ") uploaded and forwarded to channel successfully.")])
  | (d2, none, tr) =>
      (d2, .dbSetMovieFileId fid :: tr ++
        [.userMsg ("Movie file (" ++ fname ++ ") uploaded successfully, but forwarding to channel failed.")])

/-- The TV branch of `process_file_upload_batch` (src/upload.py:164-214):
upsert the episode's `file_id`, then forward. -/
def tv_upload_branch (d : Doc) (sn en : Nat) (fid fname : String)
    (sendOut : Option Nat) (backlinkOk : Bool) : Doc × List UpEffect :=
  match forward_to_storage_channel_tv (attachEpisodeBatch d sn en fid) sn en fid
      sendOut backlinkOk with
  | (d2, some _, tr) =>
      (d2, .dbEpisodeUpsert sn en fid :: tr ++
        [.userMsg ("Episode " ++ toString en ++ " (" ++ fname ++ ") uploaded and forwarded to channel successfully.")])
  | (d2, none, tr) =>
      (d2, .dbEpisodeUpsert sn en fid :: tr ++
        [.userMsg ("Episode " ++ toString en ++ " (" ++ fname ++ ") uploaded successfully, but forwarding to channel failed.")])

/-- The episode record the fetch path would read: first season numbered `sn`,
first episode numbered `en` within it. -/
def lookupEpisode (d : Doc) (sn en : Nat) : Option Episode :=
  match d.details.seasons.find? (fun s => s.season_number == sn) with
  | none => none
  | some s => s.episodes.find? (fun e => e.episode_number == en)

theorem updateFirstSeason_find (ss : List Season) (sn : Nat) (f : Season → Season)
    (hf : ∀ s, (f s).season_number = s.season_number) :
    (updateFirstSeason ss sn f).find? (fun s => s.season_number == sn) =
      (ss.find? (fun s => s.season_number == sn)).map f := by
  induction ss with
  | nil => rfl
  | cons s rest ih =>
      unfold updateFirstSeason
      by_cases h : (s.season_number == sn) = true
      · rw [if_pos h,
          @List.find?_cons_of_pos _ (fun u => u.season_number == sn) (f s) rest
            (by simpa [hf] using h),
          @List.find?_cons_of_pos _ (fun u => u.season_number == sn) s rest h]
        rfl
      · rw [if_neg h,
          @List.find?_cons_of_neg _ (fun u => u.season_number == sn) s
            (updateFirstSeason rest sn f) h,
          @List.find?_cons_of_neg _ (fun u => u.season_number == sn) s rest h, ih]

/-- Where the batch attach lands, in a clean state: season numbers are
distinct, a season numbered `sn` exists, and the episode number `en`
occurs at most in that season.  Then after `attachEpisodeBatch` the season
numbered `sn` holds an episode numbered `en` whose `file_id` is the new
reference. -/
theorem attachEpisodeBatch_lookup (d : Doc) (sn en : Nat) (fid : String)
    (hnums : (d.details.seasons.map Season.season_number).Nodup)
    (hsn : ∃ s ∈ d.details.seasons, s.season_number = sn)
    (hother : ∀ s ∈ d.details.seasons, s.season_number ≠ sn →
      ∀ e ∈ s.episodes, e.episode_number ≠ en) :
    ∃ e, lookupEpisode (attachEpisodeBatch d sn en fid) sn en = some e ∧
      e.file_id = some fid := by
  obtain ⟨s0, hs0mem, hs0num⟩ := hsn
  have hfs : (d.details.seasons.find? (fun s => s.season_number == sn)).isSome :=
    List.find?_isSome.mpr ⟨s0, hs0mem, by simp [hs0num]⟩
  obtain ⟨t0, ht0⟩ := Option.isSome_iff_exists.mp hfs
  have ht0num : t0.season_number = sn := by simpa using List.find?_some ht0
  have ht0mem : t0 ∈ d.details.seasons := List.mem_of_find?_eq_some ht0
  have hA : (d.details.seasons.any fun s => s.season_number == sn) = true :=
    List.any_eq_true.mpr ⟨s0, hs0mem, by simp [hs0num]⟩
  unfold attachEpisodeBatch
  by_cases hq : episodeExistsQuery d sn en = true
  · rw [if_pos hq]
    rw [episodeExistsQuery, Bool.and_eq_true] at hq
    obtain ⟨s1, hs1, hin⟩ := List.any_eq_true.mp hq.2
    obtain ⟨e1, he1, he1num⟩ := List.any_eq_true.mp hin
    have hs1num : s1.season_number = sn := by
      by_contra hne
      exact hother s1 hs1 hne e1 he1 (by simpa using he1num)
    have hs1t0 : s1 = t0 :=
      List.inj_on_of_nodup_map hnums hs1 ht0mem (hs1num.trans ht0num.symm)
    have hes : (t0.episodes.find? (fun e => e.episode_number == en)).isSome :=
      List.find?_isSome.mpr ⟨e1, hs1t0 ▸ he1, he1num⟩
    obtain ⟨e2, he2⟩ := Option.isSome_iff_exists.mp hes
    have he2num : (e2.episode_number == en) = true := by
      simpa using List.find?_some he2
    refine ⟨{ e2 with file_id := some fid }, ?_, rfl⟩
    unfold lookupEpisode setEpisodeFileId
    rw [updateFirstSeason_find d.details.seasons sn (setFileIdInSeason en fid)
      (fun s => rfl), ht0]
    simp only [Option.map_some']
    have hpg : ((fun e : Episode => e.episode_number == en) ∘ (fun e =>
        if e.episode_number == en then { e with file_id := some fid } else e)) =
        (fun e : Episode => e.episode_number == en) := by
      funext e
      by_cases he : (e.episode_number == en) = true <;> simp [Function.comp, he]
    simp only [setFileIdInSeason]
    rw [List.find?_map, hpg, he2, Option.map_some']
    simp [he2num]
  · rw [if_neg hq]
    rw [episodeExistsQuery, Bool.and_eq_true] at hq
    have hB : ∀ s ∈ d.details.seasons, ∀ e ∈ s.episodes, (e.episode_number == en) = false := by
      intro s hs e he
      by_contra hbe
      exact hq ⟨hA, List.any_eq_true.mpr ⟨s, hs,
        List.any_eq_true.mpr ⟨e, he, by simpa using hbe⟩⟩⟩
    refine ⟨{ episode_number := en, file_id := some fid }, ?_, rfl⟩
    unfold lookupEpisode pushEpisode
    rw [updateFirstSeason_find d.details.seasons sn (pushEpisodeInSeason en fid)
      (fun s => rfl), ht0]
    simp only [Option.map_some', pushEpisodeInSeason]
    have hnone : t0.episodes.find? (fun e => e.episode_number == en) = none :=
      List.find?_eq_none.mpr fun e he => by simp [hB t0 ht0mem e he]
    rw [List.find?_append, hnone]
    simp

/-- C8: for both the movie and the episode attach, the catalog write of the
playable file reference happens strictly before the forward to the storage
channel is attempted; when the forward (or the follow-up channel-id write)
fails, the record still carries the file reference, and the user receives
the soft "uploaded successfully, but forwarding to channel failed."
message — the attach is still reported as an upload success. -/
theorem c8_forward_failure_is_soft (d : Doc) (fid fname : String) (sn en : Nat)
    (sendOut : Option Nat) (backlinkOk : Bool)
    (hfail : sendOut = none ∨ backlinkOk = false)
    (hnums : (d.details.seasons.map Season.season_number).Nodup)
    (hsn : ∃ s ∈ d.details.seasons, s.season_number = sn)
    (hother : ∀ s ∈ d.details.seasons, s.season_number ≠ sn →
      ∀ e ∈ s.episodes, e.episode_number ≠ en) :
    (movie_upload_branch d fid fname sendOut backlinkOk).2.take 2 =
      [.dbSetMovieFileId fid, .forwardSend fid] ∧
    (movie_upload_branch d fid fname sendOut backlinkOk).1.file_id = some fid ∧
    (movie_upload_branch d fid fname sendOut backlinkOk).2 =
      [.dbSetMovieFileId fid, .forwardSend fid,
       .userMsg ("Movie file (" ++ fname ++ ") uploaded successfully, but forwarding to channel failed.")] ∧
    (tv_upload_branch d sn en fid fname sendOut backlinkOk).2.take 2 =
      [.dbEpisodeUpsert sn en fid, .forwardSend fid] ∧
    (tv_upload_branch d sn en fid fname sendOut backlinkOk).2 =
      [.dbEpisodeUpsert sn en fid, .forwardSend fid,
       .userMsg ("Episode " ++ toString en ++ " (" ++ fname ++ ") uploaded successfully, but forwarding to channel failed.")] ∧
    ∃ e, lookupEpisode (tv_upload_branch d sn en fid fname sendOut backlinkOk).1 sn en =
      some e ∧ e.file_id = some fid := by
  have hmovie : forward_to_storage_channel_movie { d with file_id := some fid }
      fid sendOut backlinkOk =
      ({ d with file_id := some fid }, none, [.forwardSend fid]) := by
    rcases hfail with h | h
    · rw [h]; rfl
    · cases sendOut with
      | none => rfl
      | some mid => rw [h]; rfl
  have htv : forward_to_storage_channel_tv (attachEpisodeBatch d sn en fid)
      sn en fid sendOut backlinkOk =
      (attachEpisodeBatch d sn en fid, none, [.forwardSend fid]) := by
    rcases hfail with h | h
    · rw [h]; rfl
    · cases sendOut with
      | none => rfl
      | some mid => rw [h]; rfl
  refine ⟨?_, ?_, ?_, ?_, ?_, ?_⟩
  · simp only [movie_upload_branch, hmovie]
    rfl
  · simp only [movie_upload_branch, hmovie]
  · simp only [movie_upload_branch, hmovie]
    rfl
  · simp only [tv_upload_branch, htv]
    rfl
  · simp only [tv_upload_branch, htv]
    rfl
  · simp only [tv_upload_branch, htv]
    exact attachEpisodeBatch_lookup d sn en fid hnums hsn hother

/-- Witness for C8 at a concrete failed forward. -/
theorem c8_forward_failure_is_soft_witness :
    (movie_upload_branch c2Doc "f9" "2.mp4" none true).1.file_id = some "f9" ∧
    (tv_upload_branch c2Doc 1 2 "f9" "2.mp4" none true).2 =
      [.dbEpisodeUpsert 1 2 "f9", .forwardSend "f9",
       .userMsg "Episode 2 (2.mp4) uploaded successfully, but forwarding to channel failed."] := by
  have hsn : ∃ s ∈ c2Doc.details.seasons, s.season_number = 1 := by
    have hmem : Season.mk 1 [Episode.mk 1 (some "a") none] ∈ c2Doc.details.seasons := by
      decide
    exact ⟨Season.mk 1 [Episode.mk 1 (some "a") none], hmem, rfl⟩
  have h := c8_forward_failure_is_soft c2Doc "f9" "2.mp4" 1 2 none true
    (Or.inl rfl) (by decide) hsn (by decide)
  exact ⟨h.2.1, by simpa using h.2.2.2.2.1⟩

/-! ## C9: fetch offers only episodes with an attached file (src/fetch.py:145-205) -/

/-- Python truthiness of `ep.get("file_id")`: an absent key, `None` or the
empty string is falsy. -/
def pyTruthyStr : Option String → Bool
  | none => false
  | some s => s != ""

/-- The episode option list of src/fetch.py:171 (rebuilt identically at 202):
`[f"Episode {ep['episode_number']}" for ep in episodes if ep.get("file_id")] + ["Back"]`. -/
def episodeFetchOptions (season : Season) : List String :=
  ((season.episodes.filter fun ep => pyTruthyStr ep.file_id).map fun ep =>
    "Episode " ++ toString ep.episode_number) ++ ["Back"]

/-- Remove every occurrence of `old` from `s`, scanning left to right
(Python `s.replace(old, "")`); `fuel` bounds the recursion by the text
length so the function stays structural. -/
def goRemove (old : List Char) : Nat → List Char → List Char
  | 0, _ => []
  | _, [] => []
  | fuel + 1, c :: rest =>
      if (c :: rest).take old.length == old && !old.isEmpty then
        goRemove old fuel ((c :: rest).drop old.length)
      else c :: goRemove old fuel rest

/-- Python `s.replace(old, "")`. -/
def pyReplaceEmpty (old s : String) : String :=
  String.mk (goRemove old.data s.data.length s.data)

/-- Python `int(s)` for the non-negative decimals the fetch steps parse;
`none` models `ValueError`. -/
def pyInt (s : String) : Option Nat :=
  if s.data ≠ [] && s.data.all Char.isDigit then
    some (s.data.foldl (fun a c => a * 10 + (c.toNat - 48)) 0)
  else none

/-- Outcome of `process_episode_fetch` (src/fetch.py:176-205). -/
inductive FetchOutcome where
  /-- `handle_back` fired: the season-selection step re-runs. -/
  | backToSeasons
  /-- `int(...)` raised `ValueError`: "Invalid episode format. Try again." -/
  | invalidFormat
  /-- no such episode, or it has no truthy `file_id`:
  "Invalid episode or not uploaded. Try again." -/
  | invalidEpisode
  /-- the episode file is sent to the chat. -/
  | delivered (fid : String)
deriving Repr, DecidableEq

/-- `process_episode_fetch` (src/fetch.py:176-205). -/
def process_episode_fetch (season : Season) (m : Msg) : Except PyError FetchOutcome :=
  match handle_back m (fun _ => .ok FetchOutcome.backToSeasons) with
  | .error e => .error e
  | .ok (some r) => .ok r
  | .ok none =>
      match m.text with
      | none => .error (.attributeError "NoneType has no attribute replace")
      | some t =>
          match pyInt (pyStrip (pyReplaceEmpty "Episode " t)) with
          | none => .ok .invalidFormat
          | some episode_number =>
              match season.episodes.find? (fun ep =>
                  ep.episode_number == episode_number) with
              | none => .ok .invalidEpisode
              | some episode =>
                  if pyTruthyStr episode.file_id then
                    .ok (.delivered (episode.file_id.getD ""))
                  else .ok .invalidEpisode

/-- C9: the fetch episode list offers exactly the episodes with a truthy
file reference (plus "Back"): every offered option is "Back" or the label
of an episode with a file; every episode with a file is offered; and a
selection parsing to an episode number whose episodes all lack a file is
rejected as invalid, never delivered. -/
theorem c9_only_uploaded_episodes_offered (season : Season) :
    (∀ o ∈ episodeFetchOptions season, o = "Back" ∨
      ∃ ep ∈ season.episodes, pyTruthyStr ep.file_id = true ∧
        o = "Episode " ++ toString ep.episode_number) ∧
    (∀ ep ∈ season.episodes, pyTruthyStr ep.file_id = true →
      ("Episode " ++ toString ep.episode_number) ∈ episodeFetchOptions season) ∧
    (∀ (t : String) (n : Nat), pyLower t ≠ "back" →
      pyInt (pyStrip (pyReplaceEmpty "Episode " t)) = some n →
      (∀ ep ∈ season.episodes, ep.episode_number = n → pyTruthyStr ep.file_id = false) →
      process_episode_fetch season (textMsg t) = .ok .invalidEpisode) := by
  refine ⟨?_, ?_, ?_⟩
  · intro o ho
    rcases List.mem_append.mp ho with ho | ho
    · obtain ⟨ep, hmem, rfl⟩ := List.mem_map.mp ho
      obtain ⟨hmem2, htr⟩ := List.mem_filter.mp hmem
      exact Or.inr ⟨ep, hmem2, htr, rfl⟩
    · exact Or.inl (by simpa using ho)
  · intro ep hmem htr
    exact List.mem_append_left _
      (List.mem_map.mpr ⟨ep, List.mem_filter.mpr ⟨hmem, htr⟩, rfl⟩)
  · intro t n hb hparse hnofile
    have hback := handle_back_not_back (textMsg t)
      (fun _ => .ok FetchOutcome.backToSeasons) t rfl hb
    unfold process_episode_fetch
    rw [hback]
    rw [show (textMsg t).text = some t from rfl]
    dsimp only
    rw [hparse]
    dsimp only
    cases hf : season.episodes.find? (fun ep => ep.episode_number == n) with
    | none => rfl
    | some episode =>
        have hnum : episode.episode_number = n := by
          simpa using List.find?_some hf
        have hmem := List.mem_of_find?_eq_some hf
        dsimp only
        rw [hnofile episode hmem hnum]
        rfl

/-- A season where episode 1 has a file and episode 2 does not. -/
def c9Season : Season :=
  { season_number := 1,
    episodes := [{ episode_number := 1, file_id := some "x" },
                 { episode_number := 2 }] }

/-- Witness for C9: episode 1 (with a file) is offered, and selecting
episode 2 (no file) is rejected. -/
theorem c9_only_uploaded_episodes_offered_witness :
    ("Episode " ++ toString 1) ∈ episodeFetchOptions c9Season ∧
    process_episode_fetch c9Season (textMsg "Episode 2") = .ok .invalidEpisode :=
  ⟨(c9_only_uploaded_episodes_offered c9Season).2.1
      { episode_number := 1, file_id := some "x" } (by decide) (by decide),
   (c9_only_uploaded_episodes_offered c9Season).2.2 "Episode 2" 2
      (by decide) (by decide) (by decide)⟩

/-! ## C6: media-group batches (src/upload.py:218-244) -/

/-- `re.match(r"(\d+)", file_name)`: the leading decimal digits of the
caption, `none` when the caption does not start with a digit
(src/upload.py:154-161). -/
def parse_episode_number (file_name : String) : Option Nat :=
  let ds := file_name.data.takeWhile Char.isDigit
  if ds.isEmpty then none
  else some (ds.foldl (fun a c => a * 10 + (c.toNat - 48)) 0)

/-- `process_file_upload_batch` as `handle_media_group` invokes it
(src/upload.py:243): the whole collected message *list* is passed as the
`message` parameter (and the chat id as `tv_show`).  Its first statement,
`chat_id = message.chat.id` (line 105), raises `AttributeError` on a list —
before any caption parsing, catalog write or user notification. -/
def process_file_upload_batch_onList (msgs : List Msg) (chatIdArg : Nat) :
    Except PyError Unit :=
  .error (.attributeError "list object has no attribute chat")

/-- The `media_groups` dictionary keyed by `media_group_id`. -/
def getGroup (groups : List (Nat × List Msg)) (gid : Nat) : Option (List Msg) :=
  (groups.find? (fun g => g.1 == gid)).map Prod.snd

def setGroup (groups : List (Nat × List Msg)) (gid : Nat) (msgs : List Msg) :
    List (Nat × List Msg) :=
  if (groups.find? (fun g => g.1 == gid)).isSome then
    groups.map (fun g => if g.1 == gid then (gid, msgs) else g)
  else groups ++ [(gid, msgs)]

/-- `handle_media_group` (src/upload.py:221-244): append the message to its
group; as soon as the group holds more than one message — there is no
quiet-period timer — call `process_file_upload_batch(media_groups[gid],
chat_id)`.  That call raises, so the `del media_groups[gid]` on line 244 is
never reached and the exception escapes the handler. -/
def handle_media_group (groups : List (Nat × List Msg)) (m : Msg) (gid : Nat) :
    List (Nat × List Msg) × Except PyError Unit :=
  match setGroup groups gid (((getGroup groups gid).getD []) ++ [m]),
      ((getGroup groups gid).getD []) ++ [m] with
  | groups2, cur2 =>
      if cur2.length > 1 then
        match process_file_upload_batch_onList cur2 m.chat_id with
        | .error e => (groups2, .error e)
        | .ok _ => (groups2.filter (fun g => g.1 != gid), .ok ())
      else (groups2, .ok ())

/-- Deliver a sequence of same-group file messages to `handle_media_group`,
collecting each delivery's outcome. -/
def runMediaGroup (groups : List (Nat × List Msg)) (gid : Nat) :
    List Msg → List (Nat × List Msg) × List (Except PyError Unit)
  | [] => (groups, [])
  | m :: rest =>
      match handle_media_group groups m gid with
      | (g2, out) =>
          match runMediaGroup g2 gid rest with
          | (g3, outs) => (g3, out :: outs)

/-- A file message of a media group. -/
def capMsg (cap fid : String) : Msg :=
  { chat_id := 7, content_type := "video", video := some fid, caption := some cap }

/-- C6: delivering the batch "1.mp4", "2.mp4", "bad" under one group id
does not yield two episode records and one malformed-caption report — the
handler flushes as soon as the group holds two messages (no quiet window),
the flush call raises `AttributeError`, the group is never cleaned up, and
no catalog write and no user notification ever happens; yet the leading
integer parse the claim relies on would have accepted "1.mp4" and "2.mp4"
and rejected "bad". -/
theorem c6_media_group_batch_crashes :
    runMediaGroup [] 42 [capMsg "1.mp4" "fa", capMsg "2.mp4" "fb", capMsg "bad" "fc"] =
      ([(42, [capMsg "1.mp4" "fa", capMsg "2.mp4" "fb", capMsg "bad" "fc"])],
       [.ok (), .error (.attributeError "list object has no attribute chat"),
        .error (.attributeError "list object has no attribute chat")]) ∧
    parse_episode_number "1.mp4" = some 1 ∧
    parse_episode_number "2.mp4" = some 2 ∧
    parse_episode_number "bad" = none := by
  exact ⟨rfl, rfl, rfl, rfl⟩

end SparrowFlix
